import Mathlib

/-!
Verification of the PortalIQ transfer-portal ingestion and TVI scoring
pipeline (src/backend).  Python strings are modelled as `List Char`,
Python numbers (int/float) as `ℚ`, Python `None` as `Option.none`, and
Python dicts as association lists.  All definitions are shallow embeddings
of the functions in `tvi_engine.py`, `ingest_transfers.py` and
`on3_client.py`; the Supabase storage client (an external collaborator)
is modelled as an explicit backend of state-passing functions, with a
concrete instance implementing Postgres upsert-on-conflict semantics.
-/

/-! ## Python string primitives -/

/-- The type of Python strings, modelled as their character list. -/
abbrev Str := List Char

/-- Characters removed by Python `str.strip()` (ASCII whitespace). -/
def isPySpace (c : Char) : Bool :=
  c = ' ' || c = '\t' || c = '\n' || c = '\r' || c = '\x0b' || c = '\x0c'

/-- Python `str.strip()`: drop leading and trailing whitespace. -/
def pyStrip (s : Str) : Str :=
  ((s.dropWhile isPySpace).reverse.dropWhile isPySpace).reverse

/-- ASCII lowercasing of one character, as Python `str.lower()` does on ASCII. -/
def pyLowerChar (c : Char) : Char :=
  if 65 ≤ c.toNat ∧ c.toNat ≤ 90 then Char.ofNat (c.toNat + 32) else c

/-- Python `str.lower()`. -/
def pyLower (s : Str) : Str := s.map pyLowerChar

/-- Python `str.startswith(pat)`. -/
def pyStartsWith (s pat : Str) : Bool := pat.isPrefixOf s

/-- Fuel-driven worker for `pyRemoveAll`; the fuel is the length of the
scanned list, which bounds the number of steps. -/
def removeAllAux (pat : Str) : Nat → Str → Str
  | 0, l => l
  | _ + 1, [] => []
  | fuel + 1, c :: cs =>
      if pat ≠ [] ∧ pat.isPrefixOf (c :: cs) then
        removeAllAux pat fuel ((c :: cs).drop pat.length)
      else
        c :: removeAllAux pat fuel cs

/-- Python `s.replace(pat, "")`: delete every non-overlapping occurrence of
`pat` in `s`, scanning left to right. -/
def pyRemoveAll (s pat : Str) : Str := removeAllAux pat s.length s

/-! ## tvi_engine.py -/

/-- Source `_safe_divide`: returns `0.0` when the denominator is zero. -/
def _safe_divide (numerator denominator : ℚ) : ℚ :=
  if denominator = 0 then 0 else numerator / denominator

/-- Source `_experience_score`: maps the class-year free text (or `None`)
to an experience score.  Python `if not class_year` is true exactly for
`None` and the empty string. -/
def _experience_score (class_year : Option Str) : ℚ :=
  match class_year with
  | none => 1/2
  | some s =>
    if s = [] then 1/2
    else
      let normalized := pyLower (pyStrip s)
      if normalized = "sr".toList ∨ normalized = "senior".toList then 1
      else if normalized = "jr".toList ∨ normalized = "junior".toList then 4/5
      else if normalized = "so".toList ∨ normalized = "soph".toList ∨
              normalized = "sophomore".toList then 3/5
      else if normalized = "fr".toList ∨ normalized = "freshman".toList then 2/5
      else 1/2

/-- A Python dict of numeric (or `None`) stat values, keyed by string. -/
abbrev StatsDict := List (String × Option ℚ)

/-- Python `d.get(k)` on a stats dict: `none` when the key is absent. -/
def dictFind (d : StatsDict) (k : String) : Option (Option ℚ) :=
  (d.find? (fun p => p.1 == k)).map (fun p => p.2)

/-- Source pattern `float(stats.get(k, 0) or 0)`: an absent key gives the
default `0`; a present value that is falsy (`None` or `0`) gives `0`;
any other number passes through (`float` of a rational is exact here). -/
def statGet (stats : StatsDict) (k : String) : ℚ :=
  match dictFind stats k with
  | none => 0
  | some none => 0
  | some (some x) => x

/-- A Python dict of string (or `None`) metadata values, keyed by string.
The ingestion pipeline's `tvi_player_features` dict also carries numeric
entries (`rating`, ids), but `compute_tvi` only ever reads the
string-valued `class_year` entry, so only string-valued entries are
modelled. -/
abbrev MetaDict := List (String × Option Str)

/-- Python `player_meta.get("class_year")`: `None` when absent. -/
def metaGet (d : MetaDict) (k : String) : Option Str :=
  match d.find? (fun p => p.1 == k) with
  | none => none
  | some p => p.2

/-- The `components` dict built by `compute_tvi` (four fixed keys, in
insertion order usage, efficiency, durability, experience). -/
structure Components where
  usage : ℚ
  efficiency : ℚ
  durability : ℚ
  experience : ℚ
deriving DecidableEq

/-- The return dict of `compute_tvi`: `{"tvi": ..., "components": ...}`. -/
structure TVIResult where
  tvi : ℚ
  components : Components
deriving DecidableEq

/-- Source `compute_tvi`.  `sum(components.values()) / len(components)`
is the sum of the four component values divided by 4, since the
components dict always holds exactly the four distinct keys. -/
def compute_tvi (stats : StatsDict) (player_meta : MetaDict) : TVIResult :=
  let snaps := statGet stats "snaps"
  let yards := statGet stats "yards"
  let tds := statGet stats "tds"
  let interceptions := statGet stats "ints"
  let games := statGet stats "games_played"
  let usage := min (_safe_divide snaps 800) 1
  let efficiency := _safe_divide (yards + 20 * tds + 5 * interceptions) snaps
  let durability := _safe_divide games 12
  let experience := _experience_score (metaGet player_meta "class_year")
  let components : Components :=
    { usage := usage
      efficiency := efficiency
      durability := durability
      experience := experience }
  let tvi := (usage + efficiency + durability + experience) / 4
  { tvi := tvi, components := components }

/-! ## ingest_transfers.py: team index and team resolution -/

/-- A row of the Supabase `teams` table, as returned by the upsert. -/
structure TeamRow where
  id : Nat
  name : Option Str
  short_name : Option Str
  conference : Option Str
  school_id : Option Nat
  logo_url : Option Str
deriving DecidableEq

/-- The index built by `_build_team_index`: a Python dict from normalized
name strings to team rows. -/
abbrev TeamIndex := List (Str × TeamRow)

/-- Python dict assignment `index[key] = row`: overwrite the entry when
the key is present, otherwise append it. -/
def dictAssign (idx : TeamIndex) (k : Str) (r : TeamRow) : TeamIndex :=
  if idx.any (fun p => p.1 == k) then
    idx.map (fun p => if p.1 == k then (k, r) else p)
  else
    idx ++ [(k, r)]

/-- Python dict lookup for the team index (`key in team_index` /
`team_index[key]`). -/
def indexFind (idx : TeamIndex) (k : Str) : Option TeamRow :=
  (idx.find? (fun p => p.1 == k)).map (fun p => p.2)

/-- Source `_build_team_index`: keys each row by its trimmed, lowercased
`name` and `short_name` when they are truthy (present and non-empty).
No other key — in particular no external/school id — is ever indexed. -/
def _build_team_index (team_rows : List TeamRow) : TeamIndex :=
  team_rows.foldl
    (fun idx row =>
      let idx1 :=
        match row.name with
        | some n => if n ≠ [] then dictAssign idx (pyLower (pyStrip n)) row else idx
        | none => idx
      match row.short_name with
      | some n => if n ≠ [] then dictAssign idx1 (pyLower (pyStrip n)) row else idx1
      | none => idx1)
    []

/-- The team-resolution step of the ingestion loop (ingest_transfers.py
lines 176-180): when `on3_team` is truthy, look its trimmed lowercased
form up in the team index and take that row's `id`; otherwise `None`. -/
def resolve_team (team_index : TeamIndex) (on3_team : Option Str) : Option Nat :=
  match on3_team with
  | none => none
  | some s =>
    if s = [] then none
    else
      match indexFind team_index (pyLower (pyStrip s)) with
      | some row => some row.id
      | none => none

/-! ## ingest_transfers.py: stats normalization -/

/-- A raw season-stat record from a provider, e.g. `{"receivingYards": 450}`. -/
abbrev RawStats := StatsDict

/-- Source `_normalize_stats`: ignores the raw record entirely and returns
the fixed all-zero stat bundle (the repository has no stats provider wired
in, as its own docstring states). -/
def _normalize_stats (_raw : Option RawStats) : StatsDict :=
  [("games_played", some 0), ("snaps", some 0), ("targets", some 0),
   ("receptions", some 0), ("yards", some 0), ("tds", some 0),
   ("tackles", some 0), ("pass_breakups", some 0), ("ints", some 0)]

/-! ## ingest_transfers.py: records and storage backend

The Supabase client is an external collaborator; its table operations are
modelled as a backend of explicit state-passing functions, so the
pipeline's control flow can be verified against any behaviour the store
may exhibit.  A concrete instance (`storeBackend`) implements Postgres
upsert-on-conflict semantics, under which `NULL` values of a conflict
column never conflict. -/

/-- A team record as produced by `team_client.get_fbs_teams`. -/
structure TeamSrc where
  name : Option Str
  short_name : Option Str
  conference : Option Str
  school_id : Option Nat
  logo_url : Option Str
deriving DecidableEq

/-- The payload handed to the `teams` upsert. -/
structure TeamPayload where
  name : Option Str
  short_name : Option Str
  conference : Option Str
  school_id : Option Nat
  logo_url : Option Str
deriving DecidableEq

/-- Source `_normalize_team_payload`. -/
def _normalize_team_payload (team : TeamSrc) : TeamPayload :=
  { name := team.name
    short_name := team.short_name
    conference := team.conference
    school_id := team.school_id
    logo_url := team.logo_url }

/-- A row of the `seasons` table. -/
structure SeasonRow where
  id : Nat
  year : Nat
deriving DecidableEq

/-- A transfer record as produced by `on3_client.get_on3_transfers`
(the `raw_lines` entry is never read by the ingestion loop). -/
structure Transfer where
  player_name : Option Str
  position : Option Str
  class_year : Option Str
  height : Option Str
  weight : Option Str
  high_school : Option Str
  rating : Option ℚ
  status : Option Str
  entered_date : Option Str
  on3_team : Option Str
deriving DecidableEq

/-- The `db_player_payload` dict handed to the `players` upsert. -/
structure PlayerPayload where
  full_name : Str
  position : Option Str
  height : Option Str
  weight : Option Str
  class_year : Option Str
  hometown : Option Str
  prev_school : Option Str
  cfbd_player_id : Option Nat
  current_team_id : Option Nat
deriving DecidableEq

/-- A row of the `players` table. -/
structure PlayerRow where
  id : Nat
  full_name : Str
  position : Option Str
  height : Option Str
  weight : Option Str
  class_year : Option Str
  hometown : Option Str
  prev_school : Option Str
  cfbd_player_id : Option Nat
  current_team_id : Option Nat
deriving DecidableEq

/-- A row of the `player_season_stats` table (the `season_stats_payload`). -/
structure StatRow where
  player_id : Nat
  team_id : Option Nat
  season_id : Nat
  games_played : ℚ
  snaps : ℚ
  targets : ℚ
  receptions : ℚ
  yards : ℚ
  tds : ℚ
  tackles : ℚ
  pass_breakups : ℚ
  ints : ℚ
  raw_source : StatsDict
deriving DecidableEq

/-- A row of the `tvi_scores` table (the `tvi_payload`). -/
structure ScoreRow where
  player_id : Nat
  team_id : Option Nat
  season_id : Nat
  tvi : ℚ
  components : Components
  model_version : String
deriving DecidableEq

/-- The storage operations the ingestion pipeline performs, over an
abstract store state `σ`.  Each upsert returns the rows the client
reports back (`response.data or []`) together with the new state. -/
structure Backend (σ : Type) where
  upsertTeams : σ → List TeamPayload → List TeamRow × σ
  upsertSeason : σ → Nat → List SeasonRow × σ
  selectSeasonId : σ → Nat → Nat
  upsertPlayer : σ → PlayerPayload → List PlayerRow × σ
  selectPlayersByName : σ → Str → List PlayerRow
  upsertStats : σ → StatRow → σ
  upsertScore : σ → ScoreRow → σ

/-- Source `_upsert_teams`: normalize the team records, upsert them
(conflict target `school_id`) and build the lookup index from the rows
the upsert returns.  The comprehension's `if team` filter only drops
empty dicts, which the team client never produces. -/
def _upsert_teams {σ : Type} (B : Backend σ) (teams : List TeamSrc) (s : σ) :
    TeamIndex × σ :=
  let payload := teams.map _normalize_team_payload
  let (data, s') := B.upsertTeams s payload
  (_build_team_index data, s')

/-- Source `_ensure_season`: upsert the year (conflict target `year`) and
take the returned row's id, falling back to a select when the upsert
returns no rows. -/
def _ensure_season {σ : Type} (B : Backend σ) (s : σ) (year : Nat) : Nat × σ :=
  let (rows, s') := B.upsertSeason s year
  match rows with
  | r :: _ => (r.id, s')
  | [] => (B.selectSeasonId s' year, s')

/-- One iteration of the ingestion loop of `ingest_transfers` over a
transfer record `t`, threading the processed counter and the store. -/
def processOne {σ : Type} (B : Backend σ) (team_index : TeamIndex)
    (season_id : Nat) (acc : Nat × σ) (t : Transfer) : Nat × σ :=
  let processed := acc.1
  let s := acc.2
  let full_name := pyStrip (t.player_name.getD [])
  let current_team_id := resolve_team team_index t.on3_team
  let db_player_payload : PlayerPayload :=
    { full_name := full_name
      position := t.position
      height := t.height
      weight := t.weight
      class_year := t.class_year
      hometown := t.high_school
      prev_school := none
      cfbd_player_id := none
      current_team_id := current_team_id }
  let tvi_player_features : MetaDict :=
    [("full_name", some full_name), ("position", t.position),
     ("height", t.height), ("weight", t.weight),
     ("class_year", t.class_year), ("hometown", t.high_school),
     ("prev_school", none), ("portal_status", t.status),
     ("entered_portal", t.entered_date)]
  let upserted := B.upsertPlayer s db_player_payload
  let s1 := upserted.2
  let player_rows :=
    if upserted.1.isEmpty then B.selectPlayersByName s1 full_name
    else upserted.1
  match player_rows with
  | [] => (processed, s1)
  | pr :: _ =>
    let player_id := pr.id
    let stats_payload := _normalize_stats none
    let season_stats_payload : StatRow :=
      { player_id := player_id
        team_id := current_team_id
        season_id := season_id
        games_played := statGet stats_payload "games_played"
        snaps := statGet stats_payload "snaps"
        targets := statGet stats_payload "targets"
        receptions := statGet stats_payload "receptions"
        yards := statGet stats_payload "yards"
        tds := statGet stats_payload "tds"
        tackles := statGet stats_payload "tackles"
        pass_breakups := statGet stats_payload "pass_breakups"
        ints := statGet stats_payload "ints"
        raw_source := [] }
    let s2 := B.upsertStats s1 season_stats_payload
    let tvi_record := compute_tvi stats_payload tvi_player_features
    let tvi_payload : ScoreRow :=
      { player_id := player_id
        team_id := current_team_id
        season_id := season_id
        tvi := tvi_record.tvi
        components := tvi_record.components
        model_version := "v1" }
    let s3 := B.upsertScore s2 tvi_payload
    (processed + 1, s3)

/-- Source `ingest_transfers`: upsert teams, ensure the season, process
every transfer, and return the summary dict `{"processed": processed}`.
The scraped transfers and team feed are inputs of the model. -/
def ingest_transfers {σ : Type} (B : Backend σ) (teams_src : List TeamSrc)
    (transfers : List Transfer) (year : Nat) (s : σ) :
    List (String × Nat) × σ :=
  let ti := _upsert_teams B teams_src s
  let es := _ensure_season B ti.2 year
  let looped := transfers.foldl (processOne B ti.1 es.1) (0, es.2)
  ([("processed", looped.1)], looped.2)

/-! ## Concrete store with Postgres upsert semantics -/

/-- The persisted state: one list of rows per table, plus a fresh-id
counter for generated primary keys. -/
structure Store where
  teams : List TeamRow
  seasons : List SeasonRow
  players : List PlayerRow
  stats : List StatRow
  scores : List ScoreRow
  nextId : Nat
deriving DecidableEq

/-- The store of a fresh database. -/
def emptyStore : Store :=
  { teams := []
    seasons := []
    players := []
    stats := []
    scores := []
    nextId := 1 }

/-- Insert a new `teams` row with a fresh id. -/
def storeInsertTeam (s : Store) (p : TeamPayload) : TeamRow × Store :=
  let r : TeamRow :=
    { id := s.nextId
      name := p.name
      short_name := p.short_name
      conference := p.conference
      school_id := p.school_id
      logo_url := p.logo_url }
  (r, { s with teams := s.teams ++ [r], nextId := s.nextId + 1 })

/-- Upsert one `teams` row with conflict target `school_id`: a non-null
`school_id` equal to an existing row's updates that row; a null
`school_id` never conflicts and always inserts. -/
def storeUpsertTeam (s : Store) (p : TeamPayload) : TeamRow × Store :=
  match p.school_id with
  | some sid =>
    match s.teams.find? (fun r => r.school_id == some sid) with
    | some r =>
      let r' : TeamRow :=
        { r with name := p.name
                 short_name := p.short_name
                 conference := p.conference
                 logo_url := p.logo_url }
      (r', { s with teams := s.teams.map (fun t => if t.id == r.id then r' else t) })
    | none => storeInsertTeam s p
  | none => storeInsertTeam s p

/-- Upsert a batch of `teams` rows, returning the affected rows in order. -/
def storeUpsertTeams (s : Store) (ps : List TeamPayload) : List TeamRow × Store :=
  ps.foldl
    (fun acc p =>
      let rs := storeUpsertTeam acc.2 p
      (acc.1 ++ [rs.1], rs.2))
    ([], s)

/-- Upsert a `seasons` row with conflict target `year`. -/
def storeUpsertSeason (s : Store) (year : Nat) : List SeasonRow × Store :=
  match s.seasons.find? (fun r => r.year == year) with
  | some r => ([r], s)
  | none =>
    let r : SeasonRow := { id := s.nextId, year := year }
    ([r], { s with seasons := s.seasons ++ [r], nextId := s.nextId + 1 })

/-- Select a season id by year (the `.single()` fallback; the pipeline
only reaches it after the year has been upserted). -/
def storeSelectSeasonId (s : Store) (year : Nat) : Nat :=
  match s.seasons.find? (fun r => r.year == year) with
  | some r => r.id
  | none => 0

/-- Insert a new `players` row with a fresh id. -/
def storeInsertPlayer (s : Store) (p : PlayerPayload) : List PlayerRow × Store :=
  let r : PlayerRow :=
    { id := s.nextId
      full_name := p.full_name
      position := p.position
      height := p.height
      weight := p.weight
      class_year := p.class_year
      hometown := p.hometown
      prev_school := p.prev_school
      cfbd_player_id := p.cfbd_player_id
      current_team_id := p.current_team_id }
  ([r], { s with players := s.players ++ [r], nextId := s.nextId + 1 })

/-- Upsert one `players` row with conflict target `cfbd_player_id`: under
Postgres semantics a null `cfbd_player_id` never conflicts, so such a
payload always inserts a brand-new row. -/
def storeUpsertPlayer (s : Store) (p : PlayerPayload) : List PlayerRow × Store :=
  match p.cfbd_player_id with
  | some c =>
    match s.players.find? (fun r => r.cfbd_player_id == some c) with
    | some r =>
      let r' : PlayerRow :=
        { r with full_name := p.full_name
                 position := p.position
                 height := p.height
                 weight := p.weight
                 class_year := p.class_year
                 hometown := p.hometown
                 prev_school := p.prev_school
                 current_team_id := p.current_team_id }
      ([r'], { s with players := s.players.map (fun t => if t.id == r.id then r' else t) })
    | none => storeInsertPlayer s p
  | none => storeInsertPlayer s p

/-- The fallback lookup `select id eq full_name limit 1`. -/
def storeSelectPlayersByName (s : Store) (n : Str) : List PlayerRow :=
  (s.players.filter (fun r => r.full_name == n)).take 1

/-- Upsert a `player_season_stats` row, conflict target
`(player_id, season_id)`. -/
def storeUpsertStats (s : Store) (row : StatRow) : Store :=
  if s.stats.any (fun r => r.player_id == row.player_id && r.season_id == row.season_id) then
    { s with stats := s.stats.map (fun r =>
        if r.player_id == row.player_id && r.season_id == row.season_id then row else r) }
  else
    { s with stats := s.stats ++ [row] }

/-- Upsert a `tvi_scores` row, conflict target
`(player_id, season_id, model_version)`. -/
def storeUpsertScore (s : Store) (row : ScoreRow) : Store :=
  if s.scores.any (fun r => r.player_id == row.player_id && r.season_id == row.season_id
      && r.model_version == row.model_version) then
    { s with scores := s.scores.map (fun r =>
        if r.player_id == row.player_id && r.season_id == row.season_id
          && r.model_version == row.model_version then row else r) }
  else
    { s with scores := s.scores ++ [row] }

/-- The concrete storage backend over `Store`. -/
def storeBackend : Backend Store :=
  { upsertTeams := storeUpsertTeams
    upsertSeason := storeUpsertSeason
    selectSeasonId := storeSelectSeasonId
    upsertPlayer := storeUpsertPlayer
    selectPlayersByName := storeSelectPlayersByName
    upsertStats := storeUpsertStats
    upsertScore := storeUpsertScore }

/-! ## on3_client.py: status and date extraction -/

/-- The loop of `_extract_status_and_date`, threading the `status` and
`date` accumulators.  A line starting with `"Entered "` sets both and
breaks out of the loop; a line equal to `"Committed"` or `"Expected"`
overwrites the status and continues. -/
def extractGo (status date : Option Str) : List Str → Option Str × Option Str
  | [] => (status, date)
  | l :: ls =>
    let line := pyStrip l
    if pyStartsWith line "Entered ".toList then
      (some "Entered".toList, some (pyStrip (pyRemoveAll line "Entered ".toList)))
    else if line = "Committed".toList ∨ line = "Expected".toList then
      extractGo (some line) date ls
    else
      extractGo status date ls

/-- Source `_extract_status_and_date`. -/
def _extract_status_and_date (lines : List Str) : Option Str × Option Str :=
  extractGo none none lines

/-! ## Claims about the scoring engine -/

/-- C1: for every stat bundle and player metadata, `compute_tvi` returns
`tvi` equal to the unweighted arithmetic mean of exactly the four
components usage, efficiency, durability, experience; and on the stat
bundle snaps 400, yards 600, touchdowns (`tds`) 5, interceptions (`ints`)
1, games_played 10 with class year "JR" the components are 1/2, 141/80
(= 1.7625), 10/12 and 4/5, and the tvi is their mean 187/192 ≈ 0.9740. -/
theorem C1_tvi_unweighted_mean :
    (∀ (stats : StatsDict) (meta : MetaDict),
      (compute_tvi stats meta).tvi =
        ((compute_tvi stats meta).components.usage +
         (compute_tvi stats meta).components.efficiency +
         (compute_tvi stats meta).components.durability +
         (compute_tvi stats meta).components.experience) / 4) ∧
    compute_tvi
        [("snaps", some 400), ("yards", some 600), ("tds", some 5),
         ("ints", some 1), ("games_played", some 10)]
        [("class_year", some "JR".toList)] =
      { tvi := 187/192
        components :=
          { usage := 1/2
            efficiency := 141/80
            durability := 10/12
            experience := 4/5 } } ∧
    |(187 : ℚ)/192 - 974/1000| < 1/10000 := by
  refine ⟨fun stats meta => rfl, ?_, by rw [abs_lt]; constructor <;> norm_num⟩
  have hexp : _experience_score (some "JR".toList) = 4/5 := by
    simp only [_experience_score]
    rw [if_neg (by decide), if_neg (by decide), if_pos (by decide)]
  simp only [compute_tvi]
  rw [show statGet [("snaps", some 400), ("yards", some 600), ("tds", some 5),
        ("ints", some 1), ("games_played", some 10)] "snaps" = 400 from by decide,
      show statGet [("snaps", some 400), ("yards", some 600), ("tds", some 5),
        ("ints", some 1), ("games_played", some 10)] "yards" = 600 from by decide,
      show statGet [("snaps", some 400), ("yards", some 600), ("tds", some 5),
        ("ints", some 1), ("games_played", some 10)] "tds" = 5 from by decide,
      show statGet [("snaps", some 400), ("yards", some 600), ("tds", some 5),
        ("ints", some 1), ("games_played", some 10)] "ints" = 1 from by decide,
      show statGet [("snaps", some 400), ("yards", some 600), ("tds", some 5),
        ("ints", some 1), ("games_played", some 10)] "games_played" = 10 from by decide,
      show metaGet [("class_year", some "JR".toList)] "class_year" =
        some "JR".toList from by decide,
      hexp]
  norm_num [_safe_divide, TVIResult.mk.injEq, Components.mk.injEq]

/-- C2: for every stat bundle with snaps equal to 0, the efficiency
component of `compute_tvi` is 0 (the `_safe_divide` guard, so no
division-by-zero error is possible), and for snaps positive it equals
(yards + 20*touchdowns + 5*interceptions) / snaps. -/
theorem C2_efficiency_guarded_division (stats : StatsDict) (meta : MetaDict) :
    (statGet stats "snaps" = 0 →
      (compute_tvi stats meta).components.efficiency = 0) ∧
    (0 < statGet stats "snaps" →
      (compute_tvi stats meta).components.efficiency =
        (statGet stats "yards" + 20 * statGet stats "tds" +
         5 * statGet stats "ints") / statGet stats "snaps") := by
  constructor
  · intro h
    simp [compute_tvi, _safe_divide, h]
  · intro h
    simp [compute_tvi, _safe_divide, h.ne']

/-- Witness for C2 at concrete inputs: snaps 0 with nonzero yards gives
efficiency 0, and snaps 400 gives the quotient formula. -/
theorem C2_efficiency_guarded_division_witness :
    (compute_tvi [("snaps", some 0), ("yards", some 600)] []).components.efficiency = 0 ∧
    (compute_tvi [("snaps", some 400), ("yards", some 600), ("tds", some 5),
        ("ints", some 1)] []).components.efficiency =
      (statGet [("snaps", some 400), ("yards", some 600), ("tds", some 5),
        ("ints", some 1)] "yards" +
       20 * statGet [("snaps", some 400), ("yards", some 600), ("tds", some 5),
        ("ints", some 1)] "tds" +
       5 * statGet [("snaps", some 400), ("yards", some 600), ("tds", some 5),
        ("ints", some 1)] "ints") /
      statGet [("snaps", some 400), ("yards", some 600), ("tds", some 5),
        ("ints", some 1)] "snaps" :=
  ⟨(C2_efficiency_guarded_division _ _).1 (by norm_num [statGet, dictFind]),
   (C2_efficiency_guarded_division _ _).2 (by norm_num [statGet, dictFind])⟩

/-- C7: the usage component of `compute_tvi` always equals
min(snaps / 800, 1), hence is clamped to at most 1, and snaps 1600
yields usage exactly 1. -/
theorem C7_usage_clamped :
    (∀ (stats : StatsDict) (meta : MetaDict),
      (compute_tvi stats meta).components.usage =
        min (statGet stats "snaps" / 800) 1 ∧
      (compute_tvi stats meta).components.usage ≤ 1) ∧
    (compute_tvi [("snaps", some 1600)] []).components.usage = 1 := by
  constructor
  · intro stats meta
    constructor
    · show min (_safe_divide (statGet stats "snaps") 800) 1 = _
      norm_num [_safe_divide]
    · exact min_le_right _ _
  · norm_num [compute_tvi, statGet, dictFind, _safe_divide]

/-- C6: the experience component maps the class-year string after trimming
and lowercasing: senior/sr to 1, junior/jr to 4/5, sophomore/so/soph to
3/5, freshman/fr to 2/5, and any unrecognized or absent class-year string
to 1/2; in particular "SR", " sr " and "Senior" all yield 1 and "GR"
yields 1/2. -/
theorem C6_experience_mapping :
    (_experience_score none = 1/2) ∧
    (∀ s : Str,
      pyLower (pyStrip s) = "sr".toList ∨ pyLower (pyStrip s) = "senior".toList →
      _experience_score (some s) = 1) ∧
    (∀ s : Str,
      pyLower (pyStrip s) = "jr".toList ∨ pyLower (pyStrip s) = "junior".toList →
      _experience_score (some s) = 4/5) ∧
    (∀ s : Str,
      pyLower (pyStrip s) = "so".toList ∨ pyLower (pyStrip s) = "soph".toList ∨
        pyLower (pyStrip s) = "sophomore".toList →
      _experience_score (some s) = 3/5) ∧
    (∀ s : Str,
      pyLower (pyStrip s) = "fr".toList ∨ pyLower (pyStrip s) = "freshman".toList →
      _experience_score (some s) = 2/5) ∧
    (∀ s : Str,
      pyLower (pyStrip s) ∉ (["sr".toList, "senior".toList, "jr".toList,
        "junior".toList, "so".toList, "soph".toList, "sophomore".toList,
        "fr".toList, "freshman".toList] : List Str) →
      _experience_score (some s) = 1/2) ∧
    (_experience_score (some "SR".toList) = 1 ∧
     _experience_score (some " sr ".toList) = 1 ∧
     _experience_score (some "Senior".toList) = 1 ∧
     _experience_score (some "GR".toList) = 1/2) := by
  refine ⟨rfl, ?_, ?_, ?_, ?_, ?_, ?_, ?_, ?_, ?_⟩
  · intro s h
    have hs : s ≠ [] := by intro he; subst he; revert h; decide
    simp only [_experience_score, if_neg hs]
    rcases h with h | h <;> rw [h] <;> simp +decide
  · intro s h
    have hs : s ≠ [] := by intro he; subst he; revert h; decide
    simp only [_experience_score, if_neg hs]
    rcases h with h | h <;> rw [h] <;> simp +decide
  · intro s h
    have hs : s ≠ [] := by intro he; subst he; revert h; decide
    simp only [_experience_score, if_neg hs]
    rcases h with h | h | h <;> rw [h] <;> simp +decide
  · intro s h
    have hs : s ≠ [] := by intro he; subst he; revert h; decide
    simp only [_experience_score, if_neg hs]
    rcases h with h | h <;> rw [h] <;> simp +decide
  · intro s h
    simp only [List.mem_cons, List.not_mem_nil, or_false, not_or] at h
    obtain ⟨h1, h2, h3, h4, h5, h6, h7, h8, h9⟩ := h
    by_cases hs : s = []
    · simp only [_experience_score, if_pos hs]
    · simp only [_experience_score, if_neg hs]
      rw [if_neg (not_or.mpr ⟨h1, h2⟩), if_neg (not_or.mpr ⟨h3, h4⟩),
          if_neg (not_or.mpr ⟨h5, not_or.mpr ⟨h6, h7⟩⟩),
          if_neg (not_or.mpr ⟨h8, h9⟩)]
  · simp only [_experience_score]
    rw [if_neg (by decide), if_pos (by decide)]
  · simp only [_experience_score]
    rw [if_neg (by decide), if_pos (by decide)]
  · simp only [_experience_score]
    rw [if_neg (by decide), if_pos (by decide)]
  · simp only [_experience_score]
    rw [if_neg (by decide), if_neg (by decide), if_neg (by decide),
        if_neg (by decide), if_neg (by decide)]

/-- Witness for C6 at concrete inputs: "JR" normalizes to "jr" and scores
4/5 through the junior clause, and "RS-JR" falls through to the
unrecognized clause and scores 1/2. -/
theorem C6_experience_mapping_witness :
    _experience_score (some "JR".toList) = 4/5 ∧
    _experience_score (some "RS-JR".toList) = 1/2 :=
  ⟨C6_experience_mapping.2.2.1 "JR".toList (Or.inl (by decide)),
   C6_experience_mapping.2.2.2.2.2.1 "RS-JR".toList (by decide)⟩

/-- C10: `compute_tvi` is total on any stats dict: an absent key, a `None`
value, and a zero value are all read as 0, so on the empty stats dict the
usage, efficiency and durability components are 0 and the tvi is
experience / 4, with no exception possible. -/
theorem C10_total_on_any_stats_dict :
    (∀ (d : StatsDict) (k : String), dictFind d k = none → statGet d k = 0) ∧
    (∀ (d : StatsDict) (k : String), dictFind d k = some none → statGet d k = 0) ∧
    (∀ (d : StatsDict) (k : String), dictFind d k = some (some 0) → statGet d k = 0) ∧
    (∀ meta : MetaDict,
      (compute_tvi [] meta).components.usage = 0 ∧
      (compute_tvi [] meta).components.efficiency = 0 ∧
      (compute_tvi [] meta).components.durability = 0 ∧
      (compute_tvi [] meta).tvi = (compute_tvi [] meta).components.experience / 4) := by
  refine ⟨?_, ?_, ?_, fun meta => ⟨?_, ?_, ?_, ?_⟩⟩
  · intro d k h; simp [statGet, h]
  · intro d k h; simp [statGet, h]
  · intro d k h; simp [statGet, h]
  · show min (_safe_divide (statGet [] "snaps") 800) 1 = 0
    norm_num [statGet, dictFind, _safe_divide]
  · show _safe_divide (statGet [] "yards" + 20 * statGet [] "tds" +
        5 * statGet [] "ints") (statGet [] "snaps") = 0
    norm_num [statGet, dictFind, _safe_divide]
  · show _safe_divide (statGet [] "games_played") 12 = 0
    norm_num [statGet, dictFind, _safe_divide]
  · show (min (_safe_divide (statGet [] "snaps") 800) 1 +
        _safe_divide (statGet [] "yards" + 20 * statGet [] "tds" +
          5 * statGet [] "ints") (statGet [] "snaps") +
        _safe_divide (statGet [] "games_played") 12 +
        _experience_score (metaGet meta "class_year")) / 4 =
      _experience_score (metaGet meta "class_year") / 4
    norm_num [statGet, dictFind, _safe_divide]

/-- Witness for C10 at concrete inputs: a missing key, a `None` value and
a zero value all read as 0, and the empty stats dict with class year "JR"
gives tvi equal to experience / 4. -/
theorem C10_total_on_any_stats_dict_witness :
    statGet [] "snaps" = 0 ∧
    statGet [("snaps", none)] "snaps" = 0 ∧
    statGet [("snaps", some 0)] "snaps" = 0 ∧
    (compute_tvi [] [("class_year", some "JR".toList)]).tvi =
      (compute_tvi [] [("class_year", some "JR".toList)]).components.experience / 4 :=
  ⟨C10_total_on_any_stats_dict.1 [] "snaps" rfl,
   C10_total_on_any_stats_dict.2.1 [("snaps", none)] "snaps" (by decide),
   C10_total_on_any_stats_dict.2.2.1 [("snaps", some 0)] "snaps" (by decide),
   (C10_total_on_any_stats_dict.2.2.2 [("class_year", some "JR".toList)]).2.2.2⟩

/-! ## Claims about team resolution and stats normalization -/

/-- The stored team row used in the team-resolution claims: external
(school) id 333, name "alabama", short name "crimson tide". -/
def alabamaRow : TeamRow :=
  { id := 1
    name := some "alabama".toList
    short_name := some "crimson tide".toList
    conference := some "SEC".toList
    school_id := some 333
    logo_url := none }

/-- C3 counterexample: over the index built from a team with external id
333 and name "alabama", resolving by the id 333 yields no match while
resolving by the name "Alabama" yields the team id, so the two do not
yield the same team id as the claim states: the index never keys by
external id. -/
theorem C3_counterexample :
    resolve_team (_build_team_index [alabamaRow]) (some "333".toList) = none ∧
    resolve_team (_build_team_index [alabamaRow]) (some "Alabama".toList) = some 1 ∧
    (none : Option Nat) ≠ some 1 :=
  ⟨by decide, by decide, by decide⟩

/-- C3 amended: team resolution matches only by normalized (trimmed,
lowercased) name or short name — there is no external-id matching; a hit
returns that row's id, and an unknown or absent team yields no match
(a null association, not an error). -/
theorem C3_amended_name_only_resolution :
    (∀ (idx : TeamIndex) (s : Str) (r : TeamRow), s ≠ [] →
      indexFind idx (pyLower (pyStrip s)) = some r →
      resolve_team idx (some s) = some r.id) ∧
    (∀ (idx : TeamIndex) (s : Str), s ≠ [] →
      indexFind idx (pyLower (pyStrip s)) = none →
      resolve_team idx (some s) = none) ∧
    (∀ idx : TeamIndex, resolve_team idx none = none) := by
  refine ⟨?_, ?_, fun idx => rfl⟩
  · intro idx s r hs h
    simp [resolve_team, hs, h]
  · intro idx s hs h
    simp [resolve_team, hs, h]

/-- Witness for the amended C3: the uppercase variant "ALABAMA" resolves
to the stored team's id and the unknown name "Auburn" resolves to no
match, over the index built from `alabamaRow`. -/
theorem C3_amended_name_only_resolution_witness :
    resolve_team (_build_team_index [alabamaRow]) (some "ALABAMA".toList) =
      some alabamaRow.id ∧
    resolve_team (_build_team_index [alabamaRow]) (some "Auburn".toList) = none :=
  ⟨C3_amended_name_only_resolution.1 (_build_team_index [alabamaRow])
      "ALABAMA".toList alabamaRow (by decide) (by decide),
   C3_amended_name_only_resolution.2.1 (_build_team_index [alabamaRow])
      "Auburn".toList (by decide) (by decide)⟩

/-- C5 counterexample: for a raw stat record containing only
receivingYards 450 and no yards key, the resolved "yards" value is 0,
not 450 as the claim states: `_normalize_stats` performs no field
coalescing. -/
theorem C5_counterexample :
    statGet (_normalize_stats (some [("receivingYards", some 450)])) "yards" = 0 ∧
    (0 : ℚ) ≠ 450 :=
  ⟨rfl, by norm_num⟩

/-- C5 amended: `_normalize_stats` ignores the raw record entirely and
returns the fixed all-zero stat bundle, so every resolved stat value —
in particular "yards" for a record carrying only receivingYards 450 —
is 0. -/
theorem C5_amended_all_zero :
    (∀ raw : Option RawStats, _normalize_stats raw = _normalize_stats none) ∧
    (∀ raw : Option RawStats, statGet (_normalize_stats raw) "yards" = 0) ∧
    statGet (_normalize_stats (some [("receivingYards", some 450)])) "yards" = 0 :=
  ⟨fun _ => rfl, fun _ => rfl, rfl⟩

/-! ## Claims about status and date extraction -/

/-- Reference semantics for the amended C9: the last stripped line equal
to "Committed" or "Expected", starting from a previous status. -/
def lastStatusTok : List Str → Option Str → Option Str
  | [], st => st
  | l :: ls, st =>
      lastStatusTok ls
        (if pyStrip l = "Committed".toList ∨ pyStrip l = "Expected".toList
         then some (pyStrip l) else st)

/-- The scan of `_extract_status_and_date` stops at the first line that
starts with "Entered " (after stripping): whatever precedes it without
such a prefix and whatever follows it, the result is status "Entered"
with the date taken from that line. -/
theorem extractGo_first_entered (pre : List Str) (l : Str) (post : List Str)
    (hpre : ∀ x ∈ pre, pyStartsWith (pyStrip x) "Entered ".toList = false)
    (hl : pyStartsWith (pyStrip l) "Entered ".toList = true) :
    ∀ st d : Option Str,
      extractGo st d (pre ++ l :: post) =
        (some "Entered".toList,
         some (pyStrip (pyRemoveAll (pyStrip l) "Entered ".toList))) := by
  induction pre with
  | nil =>
    intro st d
    simp only [List.nil_append, extractGo, hl, if_true]
  | cons x xs ih =>
    intro st d
    have hx : pyStartsWith (pyStrip x) "Entered ".toList = false :=
      hpre x (List.mem_cons_self x xs)
    have hxs : ∀ y ∈ xs, pyStartsWith (pyStrip y) "Entered ".toList = false :=
      fun y hy => hpre y (List.mem_cons_of_mem x hy)
    simp only [List.cons_append, extractGo, hx]
    by_cases hc : pyStrip x = "Committed".toList ∨ pyStrip x = "Expected".toList
    · simp only [if_pos hc, Bool.false_eq_true, if_false]
      exact ih hxs (some (pyStrip x)) d
    · simp only [if_neg hc, Bool.false_eq_true, if_false]
      exact ih hxs st d

/-- When no line of the card starts with "Entered " (after stripping),
the scan keeps the most recently seen "Committed"/"Expected" token and
never sets a date. -/
theorem extractGo_no_entered (lines : List Str)
    (h : ∀ x ∈ lines, pyStartsWith (pyStrip x) "Entered ".toList = false) :
    ∀ st d : Option Str,
      extractGo st d lines = (lastStatusTok lines st, d) := by
  induction lines with
  | nil => intro st d; rfl
  | cons x xs ih =>
    intro st d
    have hx : pyStartsWith (pyStrip x) "Entered ".toList = false :=
      h x (List.mem_cons_self x xs)
    have hxs : ∀ y ∈ xs, pyStartsWith (pyStrip y) "Entered ".toList = false :=
      fun y hy => h y (List.mem_cons_of_mem x hy)
    simp only [extractGo, hx, lastStatusTok, Bool.false_eq_true, if_false]
    by_cases hc : pyStrip x = "Committed".toList ∨ pyStrip x = "Expected".toList
    · simp only [if_pos hc]
      exact ih hxs (some (pyStrip x)) d
    · simp only [if_neg hc]
      exact ih hxs st d

/-- C9 counterexample: in the card ["Entered 11/16/2025", "Committed"]
the markers "Entered" and "Committed" both appear, the most recently seen
one being "Committed", yet the kept status is "Entered" (with its date):
the Entered branch breaks the scan, so the most recently seen status
token is not the one kept. -/
theorem C9_counterexample :
    _extract_status_and_date
        ["Entered 11/16/2025".toList, "Committed".toList] =
      (some "Entered".toList, some "11/16/2025".toList) ∧
    some "Entered".toList ≠ some "Committed".toList :=
  ⟨by decide, by decide⟩

/-- C9 amended: the extraction recognizes "Entered <date>", "Committed"
and "Expected"; the first line starting with "Entered " ends the scan,
keeping status "Entered" and that line's remainder (every "Entered "
occurrence removed, then stripped) as the date regardless of later
tokens; only when no "Entered " line appears is the most recently seen
"Committed"/"Expected" token kept, with no date. -/
theorem C9_amended_first_entered_wins :
    (∀ (pre : List Str) (l : Str) (post : List Str),
      (∀ x ∈ pre, pyStartsWith (pyStrip x) "Entered ".toList = false) →
      pyStartsWith (pyStrip l) "Entered ".toList = true →
      _extract_status_and_date (pre ++ l :: post) =
        (some "Entered".toList,
         some (pyStrip (pyRemoveAll (pyStrip l) "Entered ".toList)))) ∧
    (∀ lines : List Str,
      (∀ x ∈ lines, pyStartsWith (pyStrip x) "Entered ".toList = false) →
      _extract_status_and_date lines = (lastStatusTok lines none, none)) :=
  ⟨fun pre l post hpre hl => extractGo_first_entered pre l post hpre hl none none,
   fun lines h => extractGo_no_entered lines h none none⟩

/-- Witness for the amended C9: a card with a position line, an Entered
line and a trailing Committed line keeps "Entered" with its date, and a
card with only Expected then Committed keeps the last token "Committed". -/
theorem C9_amended_first_entered_wins_witness :
    _extract_status_and_date
        (["WR".toList] ++ "Entered 11/16/2025".toList :: ["Committed".toList]) =
      (some "Entered".toList,
       some (pyStrip (pyRemoveAll (pyStrip "Entered 11/16/2025".toList)
         "Entered ".toList))) ∧
    _extract_status_and_date ["Expected".toList, "Committed".toList] =
      (lastStatusTok ["Expected".toList, "Committed".toList] none, none) :=
  ⟨C9_amended_first_entered_wins.1 ["WR".toList] "Entered 11/16/2025".toList
      ["Committed".toList] (by decide) (by decide),
   C9_amended_first_entered_wins.2 ["Expected".toList, "Committed".toList]
      (by decide)⟩

/-! ## Claims about the whole ingestion pipeline -/

/-- The team feed used in the pipeline claims: one team with external
(school) id 333. -/
def sampleTeamsSrc : List TeamSrc :=
  [{ name := some "alabama".toList
     short_name := some "crimson tide".toList
     conference := some "SEC".toList
     school_id := some 333
     logo_url := none }]

/-- A resolvable transfer record used in the pipeline claims. -/
def sampleTransfer : Transfer :=
  { player_name := some "John Doe".toList
    position := some "WR".toList
    class_year := some "JR".toList
    height := some "6-2".toList
    weight := some "190".toList
    high_school := none
    rating := some (8915/100)
    status := some "Entered".toList
    entered_date := some "11/16/2025".toList
    on3_team := some "Alabama".toList }

/-- Updating a team row never touches the `players` table. -/
theorem storeUpsertTeam_players (s : Store) (p : TeamPayload) :
    (storeUpsertTeam s p).2.players = s.players := by
  unfold storeUpsertTeam storeInsertTeam
  split
  · split <;> rfl
  · rfl

/-- The batch team upsert never touches the `players` table. -/
theorem storeUpsertTeamsGo_players (ps : List TeamPayload) :
    ∀ (rows : List TeamRow) (s : Store),
      ((ps.foldl
          (fun acc p =>
            let rs := storeUpsertTeam acc.2 p
            (acc.1 ++ [rs.1], rs.2))
          (rows, s)).2).players = s.players := by
  induction ps with
  | nil => intro rows s; rfl
  | cons p ps ih =>
    intro rows s
    simp only [List.foldl_cons]
    exact (ih _ _).trans (storeUpsertTeam_players s p)

/-- Ensuring the season never touches the `players` table. -/
theorem ensure_season_store_players (s : Store) (year : Nat) :
    ((_ensure_season storeBackend s year).2).players = s.players := by
  unfold _ensure_season storeBackend storeUpsertSeason
  rcases h : s.seasons.find? (fun r => r.year == year) with _ | r <;> simp [h]

/-- Upserting a season-stat row never touches the `players` table. -/
theorem storeUpsertStats_players (s : Store) (row : StatRow) :
    (storeUpsertStats s row).players = s.players := by
  unfold storeUpsertStats
  split <;> rfl

/-- Upserting a TVI-score row never touches the `players` table. -/
theorem storeUpsertScore_players (s : Store) (row : ScoreRow) :
    (storeUpsertScore s row).players = s.players := by
  unfold storeUpsertScore
  split <;> rfl

/-- One loop iteration over the concrete store always inserts exactly one
new `players` row: the payload's `cfbd_player_id` is always null, and
null conflict keys never conflict, so the upsert is an insert. -/
theorem processOne_store_players (ti : TeamIndex) (sid : Nat)
    (acc : Nat × Store) (t : Transfer) :
    ((processOne storeBackend ti sid acc t).2).players.length =
      acc.2.players.length + 1 := by
  simp only [processOne, storeBackend, storeUpsertPlayer, storeInsertPlayer,
    List.isEmpty_cons, Bool.false_eq_true, if_false]
  rw [storeUpsertScore_players, storeUpsertStats_players]
  simp

/-- The ingestion loop over the concrete store adds one `players` row per
transfer record. -/
theorem loop_store_players (ti : TeamIndex) (sid : Nat)
    (ts : List Transfer) :
    ∀ acc : Nat × Store,
      ((ts.foldl (processOne storeBackend ti sid) acc).2).players.length =
        acc.2.players.length + ts.length := by
  induction ts with
  | nil => intro acc; rfl
  | cons t ts ih =>
    intro acc
    simp only [List.foldl_cons]
    rw [ih, processOne_store_players]
    simp only [List.length_cons]
    omega

/-- C4 counterexample: running the pipeline twice on the identical team
feed and transfer list duplicates the player rows — the first run stores
one "John Doe" row, the second run stores a second one under a fresh id —
so the stored state is not left unchanged by the second run. -/
theorem C4_counterexample :
    ((ingest_transfers storeBackend sampleTeamsSrc [sampleTransfer] 2024
        emptyStore).2).players.length = 1 ∧
    ((ingest_transfers storeBackend sampleTeamsSrc [sampleTransfer] 2024
        (ingest_transfers storeBackend sampleTeamsSrc [sampleTransfer] 2024
          emptyStore).2).2).players.length = 2 ∧
    ((ingest_transfers storeBackend sampleTeamsSrc [sampleTransfer] 2024
        (ingest_transfers storeBackend sampleTeamsSrc [sampleTransfer] 2024
          emptyStore).2).2).players.map (fun r => r.full_name) =
      ["John Doe".toList, "John Doe".toList] ∧
    ((ingest_transfers storeBackend sampleTeamsSrc [sampleTransfer] 2024
        (ingest_transfers storeBackend sampleTeamsSrc [sampleTransfer] 2024
          emptyStore).2).2).players.map (fun r => r.id) = [3, 4] :=
  ⟨by decide, by decide, by decide, by decide⟩

/-- C4 amended: the season, team, season-stat and TVI upserts are keyed
on natural keys, but the player upsert conflicts on `cfbd_player_id`,
which the pipeline always leaves null; null keys never conflict, so every
run inserts one fresh player row per transfer — a second run on identical
source data adds duplicate player rows instead of leaving the store
unchanged. -/
theorem C4_amended_reruns_duplicate_players (s : Store)
    (teams_src : List TeamSrc) (transfers : List Transfer) (year : Nat) :
    ((ingest_transfers storeBackend teams_src transfers year s).2).players.length =
      s.players.length + transfers.length := by
  have h1 : ((_upsert_teams storeBackend teams_src s).2).players = s.players := by
    unfold _upsert_teams
    exact storeUpsertTeamsGo_players (teams_src.map _normalize_team_payload) [] s
  simp only [ingest_transfers]
  rw [loop_store_players, ensure_season_store_players, h1]

/-- The name whose storage resolution fails under `failingBackend`. -/
def badName : Str := "Bad Player".toList

/-- A transfer whose player row can be neither created nor found under
`failingBackend`. -/
def badTransfer : Transfer :=
  { player_name := some badName
    position := some "QB".toList
    class_year := some "SR".toList
    height := none
    weight := none
    high_school := none
    rating := none
    status := none
    entered_date := none
    on3_team := none }

/-- A storage backend exhibiting the unresolved-identity failure: the
player upsert reports no rows back for the payload named `badName` (and
otherwise behaves like the concrete store), and the fallback lookup by
full name finds nothing.  The non-player tables behave like the concrete
store. -/
def failingBackend : Backend Store :=
  { storeBackend with
    upsertPlayer := fun s p =>
      if p.full_name = badName then ([], s) else storeUpsertPlayer s p
    selectPlayersByName := fun _ _ => [] }

/-- The `full_name` the ingestion loop computes for a transfer record. -/
def transferFullName (t : Transfer) : Str := pyStrip (t.player_name.getD [])

/-- C8 counterexample: with one unresolvable and one resolvable transfer,
the run completes with the resolvable player processed (so the failure is
non-fatal), but the returned summary is exactly `{"processed": 1}` — it
carries no "skipped" tally, and no skip counter exists anywhere in the
result, contrary to the claim. -/
theorem C8_counterexample :
    (ingest_transfers failingBackend sampleTeamsSrc [badTransfer, sampleTransfer]
        2024 emptyStore).1 = [("processed", 1)] ∧
    ((ingest_transfers failingBackend sampleTeamsSrc [badTransfer, sampleTransfer]
        2024 emptyStore).1).find? (fun p => p.1 == "skipped") = none :=
  ⟨by decide, by decide⟩

/-- One loop iteration under `failingBackend` processes a transfer
exactly when its full name is not `badName`, and in the failing case the
iteration changes nothing and moves on. -/
theorem processOne_failing_processed (ti : TeamIndex) (sid : Nat)
    (acc : Nat × Store) (t : Transfer) :
    (processOne failingBackend ti sid acc t).1 =
      acc.1 + (if transferFullName t = badName then 0 else 1) := by
  simp only [processOne, failingBackend, transferFullName]
  by_cases h : pyStrip (t.player_name.getD []) = badName
  · simp [h]
  · simp only [h, if_false, if_neg h]
    simp [storeUpsertPlayer, storeInsertPlayer]

/-- The ingestion loop under `failingBackend` counts exactly the
transfers whose full name is not `badName`. -/
theorem loop_failing_processed (ti : TeamIndex) (sid : Nat)
    (ts : List Transfer) :
    ∀ acc : Nat × Store,
      (ts.foldl (processOne failingBackend ti sid) acc).1 =
        acc.1 + (ts.filter (fun t => transferFullName t != badName)).length := by
  induction ts with
  | nil => intro acc; rfl
  | cons t ts ih =>
    intro acc
    simp only [List.foldl_cons]
    rw [ih]
    by_cases h : transferFullName t = badName
    · have hp : (processOne failingBackend ti sid acc t).1 = acc.1 + 0 := by
        rw [processOne_failing_processed, if_pos h]
      simp [List.filter, h, hp]
    · have hp : (processOne failingBackend ti sid acc t).1 = acc.1 + 1 := by
        rw [processOne_failing_processed, if_neg h]
      simp only [List.filter]
      rw [show (transferFullName t != badName) = true by simp [h]]
      simp only [List.length_cons, hp]
      omega

/-- C8 amended: a player that can be neither created nor found is skipped
without aborting the run — every other transfer is still processed — but
no skip counter is kept: the run's summary is exactly the singleton
`{"processed": n}` with `n` the number of resolvable transfers, and it
reports no tally of skipped records. -/
theorem C8_amended_skips_not_counted (teams_src : List TeamSrc)
    (transfers : List Transfer) (year : Nat) (s : Store) :
    (ingest_transfers failingBackend teams_src transfers year s).1 =
      [("processed",
        (transfers.filter (fun t => transferFullName t != badName)).length)] ∧
    ((ingest_transfers failingBackend teams_src transfers year s).1).find?
        (fun p => p.1 == "skipped") = none := by
  have h : (ingest_transfers failingBackend teams_src transfers year s).1 =
      [("processed",
        (transfers.filter (fun t => transferFullName t != badName)).length)] := by
    simp only [ingest_transfers]
    rw [loop_failing_processed]
    simp
  exact ⟨h, by rw [h]; rfl⟩
